import Mathlib

/-!
Verification of the forecast message-composition pipeline of the
weather-bot repository (src/bot/weather.py, src/config/settings.py,
src/main.py) against its natural-language specification.

The Python code is shallowly embedded as follows:
* Python floats are modelled as elements of a linear ordered field
  (`ℚ` for the executable pipeline, `ℝ` with `Real.log` for the
  analytic claims about dew point and heat index);
* dictionary / list accesses that can raise (`d[k]`, `l[0]`) are
  modelled with `Option` fields and `Option`-monadic bodies, so a
  `try: ... except: fallback` becomes a `match` on the `Option` body;
* environment inputs of the process (`datetime.now()`, the timezone
  the server applies in `datetime.fromtimestamp`, the iteration order
  of a Python `set`, and the float `math.log` used in rendering) are
  collected in a `PyEnv` value threaded through the pipeline.
-/

/-- Python `round`: round half to even (bankers rounding), as used on
floats by `round(x)` in the source. -/
def pyround (q : ℚ) : ℤ :=
  let f := Int.floor q
  let r := q - f
  if r < 1/2 then f
  else if 1/2 < r then f + 1
  else if f % 2 = 0 then f else f + 1

/-- Two-digit zero-padded rendering of a number below 100, as produced
by `strftime` fields. -/
def two_digits (n : ℕ) : String :=
  if n < 10 then "0" ++ toString n else toString n

/-- Rendering of an epoch second count as `HH:MM`, the result of
`datetime.fromtimestamp(t).strftime(time_format)` once the timezone
shift has been folded into `t`. -/
def fmtHM (t : ℤ) : String :=
  let s := (t.emod 86400).toNat
  two_digits (s / 3600) ++ ":" ++ two_digits (s % 3600 / 60)

/-- Environment inputs of the composition pipeline: the timezone offset
(seconds) the server applies inside `datetime.fromtimestamp`, the
current date and formatted clock reading from `datetime.now()`, the
iteration order Python gives to `set(...)` of a string list
(hash-dependent, hence kept abstract), and the float `math.log` as it
is used for display values. -/
structure PyEnv where
  tz : ℤ
  now_year : ℤ
  now_month : ℤ
  now_day : ℤ
  now_hm : String
  pyset : List String → List String
  lg : ℚ → ℚ

/-- Local hour of an epoch timestamp, `datetime.fromtimestamp(dt).hour`. -/
def local_hour (env : PyEnv) (dt : ℤ) : ℕ :=
  ((dt + env.tz).emod 86400).toNat / 3600

/-- Local calendar day of an epoch timestamp, comparing equal exactly
when `datetime.fromtimestamp(dt).date()` compares equal. -/
def local_date (env : PyEnv) (dt : ℤ) : ℤ :=
  (dt + env.tz).fdiv 86400

/-- The `main` sub-dictionary of a current-weather or forecast sample. -/
structure MainData where
  temp : ℚ
  feels_like : ℚ
  temp_min : ℚ
  temp_max : ℚ
  humidity : ℕ
  pressure : ℚ
deriving DecidableEq

/-- One entry of the `weather` array of a sample. -/
structure WeatherCond where
  description : String
  condId : ℤ
deriving DecidableEq

/-- The `wind` sub-dictionary; `deg` is read with `.get(deg, 0)`. -/
structure WindData where
  speed : ℚ
  deg : Option ℤ
deriving DecidableEq

/-- The `clouds` sub-dictionary. -/
structure CloudsData where
  all : ℕ
deriving DecidableEq

/-- The `sys` sub-dictionary carrying epoch sunrise/sunset. -/
structure SysData where
  sunrise : ℤ
  sunset : ℤ
deriving DecidableEq

/-- The `rain` / `snow` sub-dictionaries; the `3h` key is read with
`.get(3h, 0)`. -/
structure RainData where
  vol3h : Option ℚ
deriving DecidableEq

/-- The current-weather payload.  Fields whose absence makes the Python
code raise `KeyError` are `Option`s. -/
structure CurrentPayload where
  main : Option MainData
  weather : List WeatherCond
  wind : Option WindData
  clouds : Option CloudsData
  sys : Option SysData
  visibility : Option ℤ
deriving DecidableEq

/-- A 3-hour forecast sample of the `forecast[list]` array. -/
structure ForecastItem where
  dt : ℤ
  main : Option MainData
  weather : List WeatherCond
  wind : Option WindData
  rain : Option RainData
  snow : Option RainData
deriving DecidableEq

/-- The 5-day forecast payload; only its `list` key is consumed by the
detailed pipeline. -/
structure ForecastPayload where
  list : Option (List ForecastItem)
deriving DecidableEq

/-- The `location_info` dictionary built by
`get_comprehensive_forecast` (always carries `city` and `country`). -/
structure LocationInfo where
  city : String
  country : String
deriving DecidableEq

/-- Pollutant components of an air-quality entry. -/
structure AirComponents where
  pm2_5 : ℚ
  pm10 : ℚ
  o3 : ℚ
deriving DecidableEq

/-- One record of the air-quality `list` array. -/
structure AirEntry where
  aqi : ℕ
  components : AirComponents
deriving DecidableEq

/-- The air-quality payload (the `list` array of the air payload). -/
structure AirPayload where
  list : List AirEntry
deriving DecidableEq

/-- The comprehensive weather dictionary handed to
`create_detailed_weather_messages`; top-level keys whose absence raises
in the outer `try` are `Option`s, `air_quality` is read with `.get`. -/
structure WeatherData where
  current : Option CurrentPayload
  forecast : Option ForecastPayload
  air_quality : Option AirPayload
  location_info : Option LocationInfo
deriving DecidableEq

/-- One pricing tier of `Config.PRICING_PLANS`. -/
structure PricingPlan where
  days : ℕ
  name : String
  description : String
deriving DecidableEq

/-- The `Config.PRICING_PLANS` dictionary of src/config/settings.py,
as the lookup function realised by `dict.get`. -/
def PRICING_PLANS : ℤ → Option PricingPlan
  | 1 => some ⟨2, "⭐ 1 зірка", "2 дні (сьогодні + завтра)"⟩
  | 2 => some ⟨3, "⭐⭐ 2 зірки", "3 дні"⟩
  | 3 => some ⟨4, "⭐⭐⭐ 3 зірки", "4 дні"⟩
  | 4 => some ⟨5, "⭐⭐⭐⭐ 4 зірки", "5 днів"⟩
  | 5 => some ⟨6, "⭐⭐⭐⭐⭐ 5 зірок", "6 днів (МАКСИМУМ!)"⟩
  | _ => none

/-- The tier resolver `Config.get_pricing_plan`:
`self.PRICING_PLANS.get(stars)`. -/
def get_pricing_plan (stars : ℤ) : Option PricingPlan :=
  PRICING_PLANS stars

/-- The `Config.BOT_USERNAME` constant. -/
def BOT_USERNAME : String := "@pogoda_bez_syurpryziv_bot"

/-- The `Config.DAY_NAMES` list. -/
def DAY_NAMES : List String :=
  ["СЬОГОДНІ", "ЗАВТРА", "ПІСЛЯЗАВТРА", "ЧЕРЕЗ 3 ДНІ", "ЧЕРЕЗ 4 ДНІ", "ЧЕРЕЗ 5 ДНІВ"]

/-- The `Config.CALL_TO_ACTIONS` list. -/
def CALL_TO_ACTIONS : List String :=
  ["🎯 Точні прогнози без сюрпризів! " ++ BOT_USERNAME,
   "⭐ Детальна погода за зірки! " ++ BOT_USERNAME,
   "🌤️ Професійні прогнози тут: " ++ BOT_USERNAME,
   "💫 Погода без сюрпризів: " ++ BOT_USERNAME,
   "🔮 Максимально детальні прогнози: " ++ BOT_USERNAME,
   "🌟 Найточніші прогнози: " ++ BOT_USERNAME]

/-- The `Config.AQI_LABELS` dictionary. -/
def AQI_LABELS : ℕ → Option String
  | 1 => some "Добра 🟢"
  | 2 => some "Задовільна 🟡"
  | 3 => some "Помірна 🟠"
  | 4 => some "Погана 🔴"
  | 5 => some "Дуже погана 🟣"
  | _ => none

/-- Result of `WeatherService.get_moon_phase`. -/
structure MoonInfo where
  phase : String
  icon : String
deriving DecidableEq

/-- Embeds `WeatherService.get_moon_phase`: the closed-form lunar phase
approximation on the current date (the unused local `c` of the source
is omitted).  The `try` of the source cannot fail, so the fallback
branch is dead and not modelled. -/
def get_moon_phase (env : PyEnv) : MoonInfo :=
  let y : ℚ := env.now_year
  let m : ℚ := env.now_month
  let d : ℚ := env.now_day
  let jd : ℚ := 365.25 * (y - 1900) + (Int.floor (30.6 * m) : ℚ) + d - 694039.09
  let age : ℚ := jd * 1.5336 + 0.18
  let phase : ℚ := age - (Int.floor age : ℚ)
  if phase < 0.0625 ∨ 0.9375 ≤ phase then ⟨"Новий місяць", "🌑"⟩
  else if phase < 0.1875 then ⟨"Молодий місяць", "🌒"⟩
  else if phase < 0.3125 then ⟨"Перша чверть", "🌓"⟩
  else if phase < 0.4375 then ⟨"Зростаючий місяць", "🌔"⟩
  else if phase < 0.5625 then ⟨"Повний місяць", "🌕"⟩
  else if phase < 0.6875 then ⟨"Спадаючий місяць", "🌖"⟩
  else if phase < 0.8125 then ⟨"Остання чверть", "🌗"⟩
  else ⟨"Старіючий місяць", "🌘"⟩

/-- Embeds `WeatherService._calculate_dew_point` (Magnus formula).
The field `F` stands for the Python floats (`ℝ` with `Real.log` for
the analytic claims, `ℚ` inside the executable pipeline) and `lg` for
`math.log`.  The three `temp - 10` branches are the `except` fallback,
reached exactly when the Python body raises: `math.log(0.0)` for zero
humidity, and `ZeroDivisionError` for a vanishing denominator. -/
def calculate_dew_point {F : Type} [LinearOrderedField F]
    (lg : F → F) (temp : F) (humidity : ℕ) : F :=
  if humidity = 0 then temp - 10
  else if (237.7 : F) + temp = 0 then temp - 10
  else
    let alpha : F := (17.27 * temp) / (237.7 + temp) + lg ((humidity : F) / 100)
    if alpha = (17.27 : F) then temp - 10
    else (237.7 * alpha) / (17.27 - alpha)

/-- Embeds `WeatherService._calculate_heat_index`; its body cannot
raise, so the `except` fallback is dead and not modelled. -/
def calculate_heat_index {F : Type} [LinearOrderedField F]
    (temp : F) (humidity : ℕ) : F :=
  if temp < 27 then temp
  else max temp (temp + 0.5 * (temp - 20) * ((humidity : F) / 100))

/-- The four day-part keys of the periods dictionary of
`_split_day_into_periods`. -/
inductive DayPeriod where
  | night
  | morning
  | day
  | evening
deriving DecidableEq

/-- The window an hour falls in, mirroring the `if/elif` chain of
`_split_day_into_periods` (night 0-6, morning 6-12, day 12-18,
evening 18-24). -/
def window_of (h : ℕ) : DayPeriod :=
  if h < 6 then .night
  else if h < 12 then .morning
  else if h < 18 then .day
  else .evening

/-- One iteration of the loop of `_split_day_into_periods`: the sample
is stored into its window only if that slot is still empty
(first-wins). -/
def assign_period (env : PyEnv) (p : DayPeriod → Option ForecastItem)
    (f : ForecastItem) : DayPeriod → Option ForecastItem :=
  fun w =>
    if w = window_of (local_hour env f.dt) ∧ p w = none then some f else p w

/-- Embeds `WeatherService._split_day_into_periods`: fold the samples
of one day over the initially empty periods dictionary. -/
def split_day_into_periods (env : PyEnv) (day_forecasts : List ForecastItem) :
    DayPeriod → Option ForecastItem :=
  day_forecasts.foldl (assign_period env) (fun _ => none)

/-- Inner loop of `WeatherService._group_forecasts_by_day`, carrying the
current day and the samples collected for it. -/
def group_aux (env : PyEnv) (d : ℤ) (acc : List ForecastItem) :
    List ForecastItem → List (List ForecastItem)
  | [] => [acc]
  | f :: rest =>
    if local_date env f.dt = d then group_aux env d (acc ++ [f]) rest
    else acc :: group_aux env (local_date env f.dt) [f] rest

/-- Embeds `WeatherService._group_forecasts_by_day`: cut the flat sample
list into runs of equal local calendar date. -/
def group_forecasts_by_day (env : PyEnv) :
    List ForecastItem → List (List ForecastItem)
  | [] => []
  | f :: rest => group_aux env (local_date env f.dt) [f] rest

/-- Python `max(candidates, key=key)`: the first element (in iteration
order) whose key is maximal; `none` on an empty iterable
(`ValueError`). -/
def pymax_by {α : Type} (key : α → ℕ) : List α → Option α
  | [] => none
  | x :: xs => some (xs.foldl (fun b a => if key b < key a then a else b) x)

/-- The dominant-description selection
`max(set(descriptions), key=descriptions.count)` of
`_create_single_day_message`; `pyset` supplies the iteration order of
the Python set of the given descriptions. -/
def dominant_description (pyset : List String → List String)
    (descriptions : List String) : Option String :=
  pymax_by (fun d => descriptions.count d) (pyset descriptions)

/-- Python `str.upper` as available to the embedding (ASCII mapping). -/
def pyupper (s : String) : String := s.toUpper

/-- Capitalisation of one word, for the `str.title` model. -/
def cap_word (w : String) : String :=
  match w.data with
  | [] => ""
  | c :: cs => String.mk (c.toUpper :: cs.map Char.toLower)

/-- Python `str.title` as available to the embedding (per-word ASCII
capitalisation). -/
def pytitle (s : String) : String :=
  String.intercalate " " ((s.splitOn " ").map cap_word)

/-- Decimal rendering of an integer. -/
def zstr (n : ℤ) : String := toString n

/-- Rendering of a model float (display only; no claim inspects these
digits). -/
def qstr (q : ℚ) : String := toString q

/-- The `directions` list of `WeatherService._get_wind_direction`. -/
def wind_directions : List String :=
  ["Півн", "ПнПнСх", "ПнСх", "СхПнСх",
   "Сх", "СхПдСх", "ПдСх", "ПдПдСх",
   "Пд", "ПдПдЗх", "ПдЗх", "ЗхПдЗх",
   "Зх", "ЗхПнЗх", "ПнЗх", "ПнПнЗх"]

/-- Embeds `WeatherService._get_wind_direction`:
`directions[round(degrees / 22.5) % 16]`. -/
def get_wind_direction (degrees : ℤ) : String :=
  wind_directions.getD ((pyround ((degrees : ℚ) / 22.5)).emod 16).toNat ""

/-- Embeds `WeatherService._get_weather_emoji` (condition code to
emoji, with the default for unknown codes). -/
def get_weather_emoji (code : ℤ) : String :=
  match code with
  | 800 => "☀️"
  | 801 => "🌤️" | 802 => "⛅" | 803 => "☁️" | 804 => "☁️"
  | 500 => "🌦️" | 501 => "🌧️" | 502 => "🌧️" | 503 => "⛈️" | 504 => "⛈️"
  | 520 => "🌦️" | 521 => "🌧️" | 522 => "🌧️" | 531 => "🌧️"
  | 300 => "🌦️" | 301 => "🌦️" | 302 => "🌧️" | 310 => "🌦️" | 311 => "🌧️" | 312 => "🌧️"
  | 600 => "🌨️" | 601 => "❄️" | 602 => "❄️" | 611 => "🌨️" | 612 => "🌨️" | 613 => "🌨️"
  | 615 => "🌨️" | 616 => "🌨️" | 620 => "🌨️" | 621 => "❄️" | 622 => "❄️"
  | 701 => "🌫️" | 711 => "🌫️" | 721 => "🌫️" | 731 => "🌫️" | 741 => "🌫️"
  | 751 => "🌫️" | 761 => "🌫️" | 762 => "🌋" | 771 => "💨" | 781 => "🌪️"
  | 200 => "⛈️" | 201 => "⛈️" | 202 => "⚡" | 210 => "🌩️" | 211 => "⛈️"
  | 212 => "⚡" | 221 => "⛈️" | 230 => "⛈️" | 231 => "⛈️" | 232 => "⚡"
  | _ => "🌤️"

/-- Dictionary iteration order of the periods dictionary (its insertion
order in `_split_day_into_periods`), shared by both loops of
`_create_single_day_message`. -/
def period_order : List DayPeriod :=
  [.night, .morning, .day, .evening]

/-- The labels of the `period_names` dictionary of
`_create_single_day_message`. -/
def period_label : DayPeriod → String
  | .night => "🌙 Ніч (00-06)"
  | .morning => "🌅 Ранок (06-12)"
  | .day => "☀️ День (12-18)"
  | .evening => "🌆 Вечір (18-24)"

/-- First loop of `_create_single_day_message`: gather `day_temps` and
`descriptions` over the populated period slots in iteration order; a
missing `main` or empty `weather` array raises (`none`). -/
def collect_day_data (periods : DayPeriod → Option ForecastItem) :
    List DayPeriod → Option (List ℚ × List String)
  | [] => some ([], [])
  | w :: ws =>
    match periods w with
    | none => collect_day_data periods ws
    | some pd => do
      let m ← pd.main
      let c ← pd.weather[0]?
      let rest ← collect_day_data periods ws
      pure (m.temp :: rest.1, c.description :: rest.2)

/-- The precipitation suffixes of one period line (`rain`/`snow` keys,
`3h` read with a zero default, printed only when positive). -/
def precip_info (tag : String) (r : Option RainData) : String :=
  match r with
  | none => ""
  | some rd =>
    let v := rd.vol3h.getD 0
    if 0 < v then " " ++ tag ++ " " ++ qstr v ++ "мм" else ""

/-- Second loop of `_create_single_day_message`: one detail line per
populated period slot, in iteration order. -/
def period_detail_lines (periods : DayPeriod → Option ForecastItem) :
    List DayPeriod → Option (List String)
  | [] => some []
  | w :: ws =>
    match periods w with
    | none => period_detail_lines periods ws
    | some pd => do
      let m ← pd.main
      let wd ← pd.wind
      let c ← pd.weather[0]?
      let rest ← period_detail_lines periods ws
      let line :=
        "   " ++ period_label w ++ ": " ++ zstr (pyround m.temp) ++ "°C (відчув. "
          ++ zstr (pyround m.feels_like) ++ "°C)\n      " ++ c.description
          ++ ", вологість " ++ toString m.humidity ++ "%, вітер "
          ++ qstr wd.speed ++ " м/с" ++ precip_info "🌧️" pd.rain
          ++ precip_info "❄️" pd.snow
      pure (line :: rest)

/-- The per-day air-quality line of `_create_single_day_message`
(the fallible first-entry AQI lookup of the air payload). -/
def day_air_info : Option AirPayload → Option String
  | none => some ""
  | some a => do
    let e ← a.list[0]?
    pure ("\n🌬️ Якість повітря: " ++ (AQI_LABELS e.aqi).getD "Невідома")

/-- The no-data placeholder of `_create_single_day_message`, returned
when no period slot is populated. -/
def no_data_message (day_name : String) : String :=
  "📅 " ++ day_name ++ "\n❌ Немає даних для цього дня"

/-- The error placeholder of `_create_single_day_message`, returned by
its `except` handler. -/
def day_error_message (day_name : String) : String :=
  "📅 " ++ day_name ++ "\n❌ Помилка створення прогнозу"

/-- Body of the `try` of `_create_single_day_message`; `none` means the
body raised. -/
def single_day_body (env : PyEnv) (day_name : String)
    (periods : DayPeriod → Option ForecastItem) (air : Option AirPayload)
    (day_index : ℕ) : Option String := do
  let data ← collect_day_data periods period_order
  match data.1 with
  | [] => pure (no_data_message day_name)
  | t0 :: trest =>
    let min_temp := pyround (trest.foldl min t0)
    let max_temp := pyround (trest.foldl max t0)
    let md ← dominant_description env.pyset data.2
    let main_description := pytitle md
    let details ← period_detail_lines periods period_order
    let air_info ← day_air_info air
    let cta := CALL_TO_ACTIONS.getD (day_index % CALL_TO_ACTIONS.length) ""
    pure ("📅 " ++ pyupper day_name ++ "\n🌡️ " ++ zstr min_temp ++ "°C — "
      ++ zstr max_temp ++ "°C | " ++ main_description ++ air_info
      ++ "\n\n🕐 ДЕТАЛЬНО ПО ПЕРІОДАХ:\n" ++ String.intercalate "\n" details
      ++ "\n\n" ++ cta)

/-- Embeds `WeatherService._create_single_day_message` with its
`try`/`except` wrapper. -/
def create_single_day_message (env : PyEnv) (day_name : String)
    (periods : DayPeriod → Option ForecastItem) (air : Option AirPayload)
    (day_index : ℕ) : String :=
  match single_day_body env day_name periods air day_index with
  | some s => s
  | none => day_error_message day_name

/-- The loop of `_create_detailed_daily_forecasts` over
`enumerate(day_names)` starting at index `i`: a day message is emitted
only while the index is below the number of day buckets. -/
def daily_messages (env : PyEnv) (air : Option AirPayload)
    (daily : List (List ForecastItem)) : ℕ → List String → List String
  | _, [] => []
  | i, nm :: rest =>
    match daily[i]? with
    | some day_data =>
      create_single_day_message env nm (split_day_into_periods env day_data) air i
        :: daily_messages env air daily (i + 1) rest
    | none => daily_messages env air daily (i + 1) rest

/-- Embeds `WeatherService._create_detailed_daily_forecasts`: group the
samples by day, truncate `DAY_NAMES` to the day count of the tier, and
render one message per rendered day.  Its `try` can only fail on the
`forecast[list]` access, in which case it returns `[]`. -/
def create_detailed_daily_forecasts (env : PyEnv) (forecast : ForecastPayload)
    (air : Option AirPayload) (days_to_show : ℕ) : List String :=
  match forecast.list with
  | none => []
  | some items =>
    let daily := group_forecasts_by_day env items
    let day_names := DAY_NAMES.take days_to_show
    daily_messages env air daily 0 day_names

/-- The sunrise/sunset rendering of `_create_current_weather_message`
(weather.py lines 204-205):
`datetime.fromtimestamp(sunrise_or_sunset).strftime(time_fmt)` — the
raw provider epoch interpreted in the timezone of the server running
the bot, with no provider UTC offset applied. -/
def header_sun_times (env : PyEnv) (sys : SysData) : String × String :=
  (fmtHM (sys.sunrise + env.tz), fmtHM (sys.sunset + env.tz))

/-- The sunrise/sunset rendering of the superseded composer
`WeatherBot.create_weather_messages` (src/main.py lines 230-234): the
provider city timezone is added to the epoch, after which
`datetime.fromtimestamp` additionally applies the server timezone. -/
def wbot_sun_times (env : PyEnv) (city_sunrise city_sunset city_timezone : ℤ) :
    String × String :=
  (fmtHM (city_sunrise + city_timezone + env.tz),
   fmtHM (city_sunset + city_timezone + env.tz))

/-- The air-quality block of the header message (fallible access to
the first air-payload entry). -/
def header_air_info : Option AirPayload → Option String
  | none => some ""
  | some a => do
    let e ← a.list[0]?
    pure ("\n🌬️ ЯКІСТЬ ПОВІТРЯ: " ++ (AQI_LABELS e.aqi).getD "Невідома"
      ++ "\n✅ PM2.5: " ++ qstr e.components.pm2_5 ++ " мкг/м³ | PM10: "
      ++ qstr e.components.pm10 ++ " мкг/м³")

/-- The error placeholder returned by the `except` handler of
`_create_current_weather_message`. -/
def current_weather_error : String :=
  "❌ Помилка створення повідомлення про поточну погоду"

/-- Body of the `try` of `_create_current_weather_message`; `none`
means the body raised. -/
def current_weather_body (env : PyEnv) (current : CurrentPayload)
    (location : LocationInfo) (air : Option AirPayload) : Option String := do
  let m ← current.main
  let c0 ← current.weather[0]?
  let wd ← current.wind
  let cl ← current.clouds
  let sys ← current.sys
  let description := pytitle c0.description
  let weather_icon := get_weather_emoji c0.condId
  let wind_direction := get_wind_direction (wd.deg.getD 0)
  let visibility := (current.visibility.getD 0).fdiv 1000
  let sun := header_sun_times env sys
  let moon_info := get_moon_phase env
  let air_info ← header_air_info air
  pure (weather_icon ++ " ПОТОЧНА ПОГОДА\n\n📍 " ++ location.city ++ ", "
    ++ location.country ++ "\n🕐 Станом на " ++ env.now_hm
    ++ "\n\n🌡️ ТЕМПЕРАТУРА\n   Зараз: " ++ zstr (pyround m.temp)
    ++ "°C (відчув. " ++ zstr (pyround m.feels_like) ++ "°C)\n   Мін/Макс: "
    ++ zstr (pyround m.temp_min) ++ "°C / " ++ zstr (pyround m.temp_max)
    ++ "°C\n   " ++ description ++ "\n\n🌪️ ВІТЕР ТА АТМОСФЕРА\n   💨 Швидкість: "
    ++ qstr wd.speed ++ " м/с (" ++ wind_direction ++ ")\n   🔽 Тиск: "
    ++ qstr m.pressure ++ " гПа\n   💧 Вологість: " ++ toString m.humidity
    ++ "%\n   👁️ Видимість: " ++ zstr visibility ++ " км\n   ☁️ Хмарність: "
    ++ toString cl.all ++ "%" ++ air_info ++ "\n\n🌅 СОНЦЕ ТА МІСЯЦЬ\n   Схід: "
    ++ sun.1 ++ " | Захід: " ++ sun.2 ++ "\n   " ++ moon_info.icon ++ " "
    ++ moon_info.phase ++ "\n\n📊 Детальний прогноз на кілька днів надходить...")

/-- Embeds `WeatherService._create_current_weather_message` with its
`try`/`except` wrapper. -/
def create_current_weather_message (env : PyEnv) (current : CurrentPayload)
    (location : LocationInfo) (air : Option AirPayload) : String :=
  match current_weather_body env current location air with
  | some s => s
  | none => current_weather_error

/-- Embeds `WeatherService._generate_weather_recommendations` (no
`try`: a failing access raises into the caller). -/
def generate_weather_recommendations (current : CurrentPayload)
    (air : Option AirPayload) : Option String := do
  let m ← current.main
  let wd ← current.wind
  let temp_recs : List String :=
    if m.temp < 0 then ["🧥 Одягайтесь тепло, ризик обмороження"]
    else if m.temp < 10 then ["🧥 Рекомендуємо теплий одяг"]
    else if 30 < m.temp then ["🌡️ Спекотно, пийте більше води"]
    else []
  let hum_recs : List String :=
    if 80 < m.humidity then ["💧 Висока вологість, можливе відчуття духоти"]
    else if m.humidity < 30 then ["🏜️ Низька вологість, зволожуйте повітря"]
    else []
  let wind_recs : List String :=
    if 10 < wd.speed then ["💨 Сильний вітер, будьте обережні"] else []
  let aqi_recs : List String ←
    match air with
    | none => pure []
    | some a => do
      let e ← a.list[0]?
      pure (if 4 ≤ e.aqi then ["😷 Погана якість повітря, носіть маску"]
        else if 3 ≤ e.aqi then
          ["🌬️ Помірна якість повітря, обмежте активність на вулиці"]
        else [])
  let recs := temp_recs ++ hum_recs ++ wind_recs ++ aqi_recs
  pure (if recs.isEmpty then "✅ Погодні умови сприятливі"
    else String.intercalate "\n   " recs)

/-- Rendering of a model float with one decimal digit, for the
`{value:.1f}` format of the additional-info block (display only). -/
def q1str (q : ℚ) : String :=
  let t := pyround (q * 10)
  zstr (t / 10) ++ "." ++ zstr (t.emod 10)

/-- Embeds `WeatherService._create_additional_info_message` (premium
block): derived dew point and heat index plus recommendations; its
`except` handler returns `None`. -/
def create_additional_info_message (env : PyEnv) (wd : WeatherData) :
    Option String := do
  let current ← wd.current
  let _location ← wd.location_info
  let m ← current.main
  let dew_point := calculate_dew_point env.lg m.temp m.humidity
  let heat_index := calculate_heat_index m.temp m.humidity
  let recommendations ← generate_weather_recommendations current wd.air_quality
  pure ("📊 ДОДАТКОВА ІНФОРМАЦІЯ\n\n🧮 РОЗРАХУНКОВІ ПАРАМЕТРИ:\n   🌡️ Точка роси: "
    ++ q1str dew_point ++ "°C\n   🔥 Індекс спеки: " ++ q1str heat_index
    ++ "°C\n   \n💡 РЕКОМЕНДАЦІЇ:\n" ++ recommendations
    ++ "\n\n📈 ТЕНДЕНЦІЇ:\n   Погода поступово змінюється протягом наступних днів."
    ++ "\n   Стежте за оновленнями прогнозу.\n\n🔬 Дані надані OpenWeatherMap API"
    ++ "\n📱 Детальніші прогнози: " ++ BOT_USERNAME)

/-- Embeds `WeatherService._create_comprehensive_final_message`
(footer; cannot raise). -/
def create_comprehensive_final_message (city_name : String)
    (days_count : ℕ) (stars_count : ℤ) : String :=
  "✅ ПОВНИЙ ПРОГНОЗ ЗАВЕРШЕНО!\n\n🎯 Ви отримали максимально детальний прогноз:\n📍 Локація: "
    ++ city_name ++ "\n📅 Період: " ++ toString days_count
    ++ " днів\n⭐ Тариф: " ++ zstr stars_count
    ++ " зірок\n🕐 Розбивка: по періодах доби (ніч/ранок/день/вечір)"
    ++ "\n\n💡 КОРИСНІ ПОРАДИ:\n🔄 Для того ж місця рекомендуємо оновлювати прогноз кожні 2-3 дні"
    ++ "\n🌍 Для іншої локації можете замовити новий прогноз"
    ++ "\n📱 Зберігайте повідомлення для офлайн-перегляду"
    ++ "\n\n🌟 Дякуємо за довіру до нашого сервісу!"

/-- The day-count resolution of `create_detailed_weather_messages`
(weather.py lines 153-154): `plan[days] if plan else 2` — an unknown
tier silently falls back to 2 days. -/
def resolve_days (stars_count : ℤ) : ℕ :=
  match get_pricing_plan stars_count with
  | some plan => plan.days
  | none => 2

/-- Embeds `WeatherService.create_detailed_weather_messages`, the
pipeline orchestrator.  The outer `try` fails (returning `[]`) exactly
when one of the top-level keys `current`, `forecast`, `location_info`
is missing; every other failure is absorbed by the sub-block handlers
modelled above. -/
def create_detailed_weather_messages (env : PyEnv) (wd : WeatherData)
    (stars_count : ℤ) : List String :=
  match wd.current, wd.forecast, wd.location_info with
  | some current, some forecast, some location =>
    let header := create_current_weather_message env current location wd.air_quality
    let days_to_show := resolve_days stars_count
    let daily := create_detailed_daily_forecasts env forecast wd.air_quality days_to_show
    let extra : List String :=
      if 3 ≤ stars_count then
        match create_additional_info_message env wd with
        | some a => [a]
        | none => []
      else []
    header :: (daily ++ extra
      ++ [create_comprehensive_final_message location.city days_to_show stars_count])
  | _, _, _ => []

/-- A concrete environment: UTC server, a fixed current date and clock,
first-occurrence set order, and an arbitrary display log (no settled
claim depends on the last two choices). -/
def env0 : PyEnv :=
  { tz := 0, now_year := 2026, now_month := 10, now_day := 12,
    now_hm := "12:00, 12.10.2026", pyset := fun l => l.dedup,
    lg := fun _ => 0 }

/-- A fully populated `main` sub-dictionary. -/
def sample_main : MainData :=
  { temp := 10, feels_like := 9, temp_min := 8, temp_max := 12,
    humidity := 50, pressure := 1013 }

/-- A fully populated 3-hour forecast sample at the given timestamp. -/
def mk_item (dt : ℤ) : ForecastItem :=
  { dt := dt, main := some sample_main,
    weather := [{ description := "ясно", condId := 800 }],
    wind := some { speed := 3, deg := some 90 }, rain := none, snow := none }

/-- A 5-day, 3-hour-interval forecast list: 40 samples, 8 per calendar
day, starting at epoch 0. -/
def sample_items : List ForecastItem :=
  (List.range 40).map (fun i => mk_item (i * 10800))

/-- A one-entry air-quality payload. -/
def sample_air : AirPayload :=
  { list := [{ aqi := 2, components := { pm2_5 := 12, pm10 := 20, o3 := 30 } }] }

/-- A fully populated current-weather payload. -/
def sample_current : CurrentPayload :=
  { main := some sample_main,
    weather := [{ description := "ясно", condId := 800 }],
    wind := some { speed := 3, deg := some 90 }, clouds := some { all := 40 },
    sys := some { sunrise := 18000, sunset := 61200 }, visibility := some 10000 }

/-- The location dictionary of the fixtures. -/
def sample_location : LocationInfo := { city := "Київ", country := "UA" }

/-- A well-formed comprehensive payload spanning 5 distinct days at
3-hour intervals. -/
def sample_weather_data : WeatherData :=
  { current := some sample_current, forecast := some { list := some sample_items },
    air_quality := some sample_air, location_info := some sample_location }

/-- The same payload with a malformed current-weather dictionary (its
`main` key missing), which makes the header sub-block raise. -/
def bad_current_weather_data : WeatherData :=
  { sample_weather_data with
    current := some { sample_current with main := none } }

/-- Chronological order of a sample list (non-decreasing timestamps). -/
def dt_sorted (l : List ForecastItem) : Prop :=
  l.Pairwise (fun a b => a.dt ≤ b.dt)

/-- `s` is a possible iteration order of the Python set of the elements
of `l`: duplicate-free and carrying exactly the elements of `l`. -/
def is_set_enum (s l : List String) : Prop :=
  s.Nodup ∧ (∀ x ∈ s, x ∈ l) ∧ ∀ x ∈ l, x ∈ s

/-- C4: for every star count s in 1..5, tier resolution returns a plan
of exactly s + 1 forecast days (1★→2, 2★→3, 3★→4, 4★→5, 5★→6). -/
theorem tier_resolution_days (s : ℤ) (h1 : 1 ≤ s) (h5 : s ≤ 5) :
    (get_pricing_plan s).map PricingPlan.days = some (s + 1).toNat := by
  interval_cases s <;> rfl

/-- Witness for `tier_resolution_days` at the 3-star tier. -/
theorem tier_resolution_days_witness :
    (1 : ℤ) ≤ 3 ∧ (3 : ℤ) ≤ 5 ∧
      (get_pricing_plan 3).map PricingPlan.days = some ((3 : ℤ) + 1).toNat :=
  ⟨by decide, by decide, tier_resolution_days 3 (by decide) (by decide)⟩

/-- C1 counterexample: star count 0 is outside the defined tiers
(`get_pricing_plan` yields `none`), yet the composition pipeline still
produces a forecast — four messages (header, two default days, footer)
— with no unknown-tier error signal. -/
theorem unknown_tier_counterexample :
    get_pricing_plan 0 = none ∧
      (create_detailed_weather_messages env0 sample_weather_data 0).length = 4 :=
  ⟨rfl, rfl⟩

/-- C1 amended: for a star count outside 1..5 the tier resolver does
signal the unknown tier (`none`), but `create_detailed_weather_messages`
silently substitutes the default day count 2 and still composes a
non-empty forecast. -/
theorem unknown_tier_silently_defaults (env : PyEnv) (wd : WeatherData)
    (stars : ℤ) (c : CurrentPayload) (f : ForecastPayload) (l : LocationInfo)
    (hc : wd.current = some c) (hf : wd.forecast = some f)
    (hl : wd.location_info = some l) (hp : get_pricing_plan stars = none) :
    resolve_days stars = 2 ∧ create_detailed_weather_messages env wd stars ≠ [] := by
  constructor
  · simp [resolve_days, hp]
  · simp only [create_detailed_weather_messages, hc, hf, hl]
    exact List.cons_ne_nil _ _

/-- Witness for `unknown_tier_silently_defaults` at star count 6. -/
theorem unknown_tier_silently_defaults_witness :
    resolve_days 6 = 2 ∧
      create_detailed_weather_messages env0 sample_weather_data 6 ≠ [] :=
  unknown_tier_silently_defaults env0 sample_weather_data 6
    sample_current { list := some sample_items } sample_location rfl rfl rfl rfl

/-- C3: on the 5-day, 3-hour-interval payload, a 3-star purchase
composes exactly 7 blocks (header, 4 day blocks, additional info,
footer) and a 1-star purchase exactly 4 blocks (header, 2 day blocks,
footer; the tier is below 3 stars, so no additional-info block). -/
theorem block_counts_three_star_one_star :
    (create_detailed_weather_messages env0 sample_weather_data 3).length = 7 ∧
      (create_detailed_weather_messages env0 sample_weather_data 1).length = 4 :=
  ⟨rfl, rfl⟩

/-- C2 counterexample: when the header sub-block raises (current
payload with its `main` key missing), the composition does not return
an empty list — it returns four messages whose first element is the
header error placeholder, i.e. a partial sequence containing an error
placeholder. -/
theorem placeholder_composition_counterexample :
    (create_detailed_weather_messages env0 bad_current_weather_data 1).head? =
        some current_weather_error ∧
      (create_detailed_weather_messages env0 bad_current_weather_data 1).length = 4 :=
  ⟨rfl, rfl⟩

/-- C2 amended: only a missing top-level payload key makes the whole
composition return the empty list; an exception inside the header
sub-block is caught there and replaced by the error placeholder, after
which composition continues and returns a non-empty partial sequence
headed by that placeholder. -/
theorem composition_failure_policy (env : PyEnv) (wd : WeatherData) (stars : ℤ) :
    ((wd.current = none ∨ wd.forecast = none ∨ wd.location_info = none) →
        create_detailed_weather_messages env wd stars = []) ∧
      (∀ c f l, wd.current = some c → wd.forecast = some f →
        wd.location_info = some l →
        create_detailed_weather_messages env wd stars ≠ [] ∧
          (current_weather_body env c l wd.air_quality = none →
            (create_detailed_weather_messages env wd stars).head? =
              some current_weather_error)) := by
  obtain ⟨cur, fo, air, loc⟩ := wd
  constructor
  · rintro (h | h | h) <;> dsimp only at h <;> subst h
    · rfl
    · cases cur <;> rfl
    · cases cur <;> cases fo <;> rfl
  · intro c f l hc hf hl
    dsimp only at hc hf hl
    subst hc; subst hf; subst hl
    constructor
    · exact List.cons_ne_nil _ _
    · intro hb
      dsimp only at hb
      simp only [create_detailed_weather_messages, List.head?_cons,
        create_current_weather_message, hb]

/-- Witness for `composition_failure_policy` on the malformed-header
fixture. -/
theorem composition_failure_policy_witness :
    create_detailed_weather_messages env0 bad_current_weather_data 4 ≠ [] ∧
      (create_detailed_weather_messages env0 bad_current_weather_data 4).head? =
        some current_weather_error :=
  have h := (composition_failure_policy env0 bad_current_weather_data 4).2
    { sample_current with main := none } { list := some sample_items }
    sample_location rfl rfl rfl
  ⟨h.1, h.2 rfl⟩

/-- C7 counterexample: with a UTC server clock, an epoch sunrise of
18000 s and sunset of 61200 s, and a provider UTC offset of 3600 s, the
header shows 05:00 and 17:00 — not the offset-adjusted 06:00 and 18:00
the claim prescribes. -/
theorem header_sun_times_counterexample :
    header_sun_times env0 { sunrise := 18000, sunset := 61200 } = ("05:00", "17:00") ∧
      (fmtHM (18000 + 3600), fmtHM (61200 + 3600)) = ("06:00", "18:00") ∧
      header_sun_times env0 { sunrise := 18000, sunset := 61200 } ≠
        (fmtHM (18000 + 3600), fmtHM (61200 + 3600)) := by
  refine ⟨rfl, rfl, ?_⟩
  decide

/-- C7 amended: with the server clock in UTC, the detailed header
formats the raw provider epoch without any offset, while only the
superseded `main.py` composer adds the provider city offset before
formatting. -/
theorem sun_times_formatting (env : PyEnv) (sr ss ct : ℤ) (h : env.tz = 0) :
    header_sun_times env { sunrise := sr, sunset := ss } = (fmtHM sr, fmtHM ss) ∧
      wbot_sun_times env sr ss ct = (fmtHM (sr + ct), fmtHM (ss + ct)) := by
  simp [header_sun_times, wbot_sun_times, h]

/-- Witness for `sun_times_formatting` at the fixture values. -/
theorem sun_times_formatting_witness :
    env0.tz = 0 ∧
      (header_sun_times env0 { sunrise := 18000, sunset := 61200 } =
          (fmtHM 18000, fmtHM 61200) ∧
        wbot_sun_times env0 18000 61200 3600 =
          (fmtHM (18000 + 3600), fmtHM (61200 + 3600))) :=
  ⟨rfl, sun_times_formatting env0 18000 61200 3600 rfl⟩

/-- Specification of the fold inside `pymax_by`: the running maximum is
the seed or a list element, dominates the seed, and dominates every
element (Python `max` keeps the first maximum, replacing only on a
strictly greater key). -/
theorem pymax_fold_spec {α : Type} (key : α → ℕ) (l : List α) :
    ∀ b : α,
      (l.foldl (fun x a => if key x < key a then a else x) b = b ∨
        l.foldl (fun x a => if key x < key a then a else x) b ∈ l) ∧
      key b ≤ key (l.foldl (fun x a => if key x < key a then a else x) b) ∧
      ∀ y ∈ l, key y ≤ key (l.foldl (fun x a => if key x < key a then a else x) b) := by
  induction l with
  | nil => intro b; exact ⟨Or.inl rfl, le_refl _, by simp⟩
  | cons a t ih =>
    intro b
    simp only [List.foldl_cons]
    by_cases hba : key b < key a
    · rw [if_pos hba]
      obtain ⟨hmem, hb2, hall⟩ := ih a
      refine ⟨?_, le_trans (le_of_lt hba) hb2, ?_⟩
      · rcases hmem with h1 | h1
        · exact Or.inr (by rw [h1]; exact List.mem_cons_self a t)
        · exact Or.inr (List.mem_cons_of_mem a h1)
      · intro y hy
        rcases List.mem_cons.mp hy with h1 | h1
        · rw [h1]; exact hb2
        · exact hall y h1
    · rw [if_neg hba]
      obtain ⟨hmem, hb2, hall⟩ := ih b
      refine ⟨?_, hb2, ?_⟩
      · rcases hmem with h1 | h1
        · exact Or.inl h1
        · exact Or.inr (List.mem_cons_of_mem a h1)
      · intro y hy
        rcases List.mem_cons.mp hy with h1 | h1
        · rw [h1]; exact le_trans (le_of_not_lt hba) hb2
        · exact hall y h1

/-- A `pymax_by` result is a member of the iterable with a maximal key. -/
theorem pymax_by_spec {α : Type} (key : α → ℕ) (l : List α) (x : α)
    (h : pymax_by key l = some x) : x ∈ l ∧ ∀ y ∈ l, key y ≤ key x := by
  cases l with
  | nil => simp [pymax_by] at h
  | cons a t =>
    simp only [pymax_by, Option.some.injEq] at h
    obtain ⟨hmem, hb, hall⟩ := pymax_fold_spec key t a
    rw [h] at hmem hb hall
    refine ⟨?_, ?_⟩
    · rcases hmem with h1 | h1
      · exact h1 ▸ List.mem_cons_self a t
      · exact List.mem_cons_of_mem a h1
    · intro y hy
      rcases List.mem_cons.mp hy with h1 | h1
      · exact h1 ▸ hb
      · exact hall y h1

/-- The dominant description is an element of the description list with
a maximal occurrence count, for any valid set-iteration order. -/
theorem dominant_description_spec (pyset : List String → List String)
    (l : List String) (d : String) (hs : is_set_enum (pyset l) l)
    (h : dominant_description pyset l = some d) :
    d ∈ l ∧ ∀ x ∈ l, l.count x ≤ l.count d := by
  obtain ⟨_, hsl, hls⟩ := hs
  obtain ⟨hmem, hmax⟩ := pymax_by_spec (fun x => l.count x) (pyset l) d h
  exact ⟨hsl d hmem, fun x hx => hmax x (hls x hx)⟩

/-- C6 counterexample: `["cloudy", "sunny"]` is a legitimate Python
set-iteration order of the distinct descriptions of
`["sunny", "cloudy"]`, and under it the selected dominant description
of the tied list is `"cloudy"`, not the first-encountered `"sunny"`. -/
theorem dominant_tie_counterexample :
    is_set_enum ["cloudy", "sunny"] ["sunny", "cloudy"] ∧
      dominant_description (fun _ => ["cloudy", "sunny"]) ["sunny", "cloudy"] =
        some "cloudy" := by
  constructor
  · unfold is_set_enum
    decide
  · rfl

/-- C6 amended: with a strict majority the dominant description is
forced — every set-iteration order of `["sunny","sunny","cloudy"]`
selects `"sunny"` — while in general (ties included) the selection is
only guaranteed to be a description of maximal count, the choice among
tied values being fixed by the set order, not by encounter order. -/
theorem dominant_description_majority :
    (∀ s, is_set_enum s ["sunny", "sunny", "cloudy"] →
        dominant_description (fun _ => s) ["sunny", "sunny", "cloudy"] =
          some "sunny") ∧
      (∀ s l d, is_set_enum s l →
        dominant_description (fun _ => s) l = some d →
        d ∈ l ∧ ∀ x ∈ l, l.count x ≤ l.count d) := by
  constructor
  · intro s hs
    have hmem : "sunny" ∈ s := hs.2.2 "sunny" (by decide)
    cases hd : dominant_description (fun _ => s) ["sunny", "sunny", "cloudy"] with
    | none =>
      cases s with
      | nil => simp at hmem
      | cons a t => simp [dominant_description, pymax_by] at hd
    | some d =>
      obtain ⟨hdl, hmax⟩ := dominant_description_spec (fun _ => s) _ d hs hd
      have hcount := hmax "sunny" (by decide)
      have : d = "sunny" := by
        rcases List.mem_cons.mp hdl with h1 | h1
        · exact h1
        · rcases List.mem_cons.mp h1 with h2 | h2
          · exact h2
          · rcases List.mem_cons.mp h2 with h3 | h3
            · subst h3
              simp at hcount
            · simp at h3
      rw [this]
  · intro s l d hs hd
    exact dominant_description_spec (fun _ => s) l d hs hd

/-- Witness for `dominant_description_majority` at the first-occurrence
set order. -/
theorem dominant_description_majority_witness :
    is_set_enum ["sunny", "cloudy"] ["sunny", "sunny", "cloudy"] ∧
      dominant_description (fun _ => ["sunny", "cloudy"])
          ["sunny", "sunny", "cloudy"] = some "sunny" :=
  ⟨by unfold is_set_enum; decide,
    dominant_description_majority.1 ["sunny", "cloudy"]
      (by unfold is_set_enum; decide)⟩

/-- Folding `assign_period` keeps an already-filled slot and otherwise
fills each window slot with the first sample of the list whose local
hour lies in the window. -/
theorem assign_foldl_window (env : PyEnv) (l : List ForecastItem) :
    ∀ (p : DayPeriod → Option ForecastItem) (w : DayPeriod),
      l.foldl (assign_period env) p w =
        match p w with
        | some x => some x
        | none =>
          (l.filter (fun f => window_of (local_hour env f.dt) = w)).head? := by
  induction l with
  | nil =>
    intro p w
    cases hp : p w <;> simp [hp]
  | cons f t ih =>
    intro p w
    simp only [List.foldl_cons, List.filter_cons]
    rw [ih (assign_period env p f) w]
    by_cases hw : w = window_of (local_hour env f.dt)
    · rw [hw]
      cases hp : p (window_of (local_hour env f.dt)) with
      | some x =>
        have ha : assign_period env p f (window_of (local_hour env f.dt)) = some x := by
          simp [assign_period, hp]
        rw [ha]
      | none =>
        have ha : assign_period env p f (window_of (local_hour env f.dt)) = some f := by
          simp [assign_period, hp]
        rw [ha]
        simp
    · have ha : assign_period env p f w = p w := by
        simp [assign_period, hw]
      rw [ha]
      have hdec : (decide (window_of (local_hour env f.dt) = w)) = false := by
        simp only [decide_eq_false_iff_not]
        exact fun h => hw h.symm
      cases hp : p w <;> simp [hp, hdec]

/-- The slot a window gets from `_split_day_into_periods` is the head
of the chronologically first samples of that window. -/
theorem split_eq_filter_head (env : PyEnv) (l : List ForecastItem) (w : DayPeriod) :
    split_day_into_periods env l w =
      (l.filter (fun f => window_of (local_hour env f.dt) = w)).head? := by
  have h := assign_foldl_window env l (fun _ => none) w
  simpa [split_day_into_periods] using h

/-- On a chronologically sorted list, the head of a filtered sublist is
a filtered element with minimal timestamp. -/
theorem sorted_filter_head {l : List ForecastItem} {P : ForecastItem → Bool}
    {f : ForecastItem} (hs : dt_sorted l) (h : (l.filter P).head? = some f) :
    f ∈ l ∧ P f = true ∧ ∀ g ∈ l, P g = true → f.dt ≤ g.dt := by
  have hsub : (l.filter P).Sublist l := List.filter_sublist l
  have hps : (l.filter P).Pairwise (fun a b => a.dt ≤ b.dt) := hs.sublist hsub
  cases hfl : l.filter P with
  | nil => rw [hfl] at h; simp at h
  | cons a t =>
    rw [hfl] at h
    simp only [List.head?_cons, Option.some.injEq] at h
    subst h
    have hfmem : a ∈ l.filter P := by
      rw [hfl]; exact List.mem_cons_self a t
    refine ⟨List.mem_of_mem_filter hfmem, List.of_mem_filter hfmem, ?_⟩
    intro g hg hPg
    have hgf : g ∈ l.filter P := List.mem_filter.mpr ⟨hg, hPg⟩
    rw [hfl] at hgf
    rcases List.mem_cons.mp hgf with h1 | h1
    · rw [h1]
    · rw [hfl] at hps
      exact (List.pairwise_cons.mp hps).1 g h1

/-- Every day bucket emitted by the grouping loop inherits a pairwise
property of the input run. -/
theorem group_aux_pairwise (env : PyEnv)
    {R : ForecastItem → ForecastItem → Prop} :
    ∀ (rest : List ForecastItem), ∀ (acc : List ForecastItem) (d : ℤ),
      (acc ++ rest).Pairwise R → ∀ g ∈ group_aux env d acc rest, g.Pairwise R := by
  intro rest
  induction rest with
  | nil =>
    intro acc d h g hg
    simp only [group_aux, List.mem_singleton] at hg
    subst hg
    simpa using h
  | cons f t ih =>
    intro acc d h g hg
    simp only [group_aux] at hg
    by_cases hd : local_date env f.dt = d
    · rw [if_pos hd] at hg
      exact ih (acc ++ [f]) d (by simpa [List.append_assoc] using h) g hg
    · rw [if_neg hd] at hg
      rcases List.mem_cons.mp hg with h1 | h1
      · subst h1
        exact (List.pairwise_append.mp h).1
      · exact ih [f] (local_date env f.dt)
          (h.sublist (List.sublist_append_right acc (f :: t))) g h1

/-- Every day bucket emitted by the grouping loop is non-empty. -/
theorem group_aux_ne_nil (env : PyEnv) :
    ∀ (rest : List ForecastItem), ∀ (acc : List ForecastItem) (d : ℤ),
      acc ≠ [] → ∀ g ∈ group_aux env d acc rest, g ≠ [] := by
  intro rest
  induction rest with
  | nil =>
    intro acc d hacc g hg
    simp only [group_aux, List.mem_singleton] at hg
    subst hg
    exact hacc
  | cons f t ih =>
    intro acc d hacc g hg
    simp only [group_aux] at hg
    by_cases hd : local_date env f.dt = d
    · rw [if_pos hd] at hg
      exact ih (acc ++ [f]) d (by simp) g hg
    · rw [if_neg hd] at hg
      rcases List.mem_cons.mp hg with h1 | h1
      · subst h1; exact hacc
      · exact ih [f] (local_date env f.dt) (by simp) g h1

/-- A day bucket of `_group_forecasts_by_day` is chronologically sorted
whenever the input list is. -/
theorem group_bucket_sorted (env : PyEnv) {l g : List ForecastItem}
    (hs : dt_sorted l) (hg : g ∈ group_forecasts_by_day env l) : dt_sorted g := by
  cases l with
  | nil => simp [group_forecasts_by_day] at hg
  | cons a t =>
    have hs2 : ([a] ++ t).Pairwise (fun x y => x.dt ≤ y.dt) := by
      simpa [dt_sorted] using hs
    exact group_aux_pairwise env t [a] (local_date env a.dt) hs2 g hg

/-- A day bucket of `_group_forecasts_by_day` is never empty. -/
theorem group_bucket_ne_nil (env : PyEnv) {l g : List ForecastItem}
    (hg : g ∈ group_forecasts_by_day env l) : g ≠ [] := by
  cases l with
  | nil => simp [group_forecasts_by_day] at hg
  | cons a t =>
    exact group_aux_ne_nil env t [a] (local_date env a.dt) (by simp) g hg

/-- C5: on a chronologically ordered sample list, the sample a
(day, window) bucket keeps is one whose local hour lies in the window
and whose timestamp is minimal among the samples of the day of that window —
all later samples of the same window are discarded. -/
theorem bucket_keeps_earliest (env : PyEnv) (l : List ForecastItem)
    (hs : dt_sorted l) (g : List ForecastItem)
    (hg : g ∈ group_forecasts_by_day env l) (w : DayPeriod) (f : ForecastItem)
    (h : split_day_into_periods env g w = some f) :
    window_of (local_hour env f.dt) = w ∧ f ∈ g ∧
      ∀ f2 ∈ g, window_of (local_hour env f2.dt) = w → f.dt ≤ f2.dt := by
  have hgs : dt_sorted g := group_bucket_sorted env hs hg
  rw [split_eq_filter_head env g w] at h
  obtain ⟨hmem, hP, hmin⟩ := sorted_filter_head hgs h
  refine ⟨by simpa using hP, hmem, ?_⟩
  intro f2 h2 hw2
  exact hmin f2 h2 (by simpa using hw2)

/-- Witness for `bucket_keeps_earliest`: of two night-window samples of
the same day, the earlier one (timestamp 0) is kept. -/
theorem bucket_keeps_earliest_witness :
    dt_sorted [mk_item 0, mk_item 3600] ∧
      [mk_item 0, mk_item 3600] ∈
        group_forecasts_by_day env0 [mk_item 0, mk_item 3600] ∧
      split_day_into_periods env0 [mk_item 0, mk_item 3600] DayPeriod.night =
        some (mk_item 0) ∧
      (window_of (local_hour env0 (mk_item 0).dt) = DayPeriod.night ∧
        mk_item 0 ∈ [mk_item 0, mk_item 3600] ∧
        ∀ f2 ∈ [mk_item 0, mk_item 3600],
          window_of (local_hour env0 f2.dt) = DayPeriod.night →
            (mk_item 0).dt ≤ f2.dt) := by
  have h1 : dt_sorted [mk_item 0, mk_item 3600] := by
    unfold dt_sorted
    simp [mk_item]
  have h2 : [mk_item 0, mk_item 3600] ∈
      group_forecasts_by_day env0 [mk_item 0, mk_item 3600] := by
    decide
  have h3 : split_day_into_periods env0 [mk_item 0, mk_item 3600]
      DayPeriod.night = some (mk_item 0) := by decide
  exact ⟨h1, h2, h3,
    bucket_keeps_earliest env0 [mk_item 0, mk_item 3600] h1 _ h2
      DayPeriod.night (mk_item 0) h3⟩

/-- If the first renderer loop returns an empty temperature list, every
period slot it visited is empty. -/
theorem collect_empty_slots (p : DayPeriod → Option ForecastItem) :
    ∀ (ws : List DayPeriod) (ts : List ℚ) (ds : List String),
      collect_day_data p ws = some (ts, ds) → ts = [] → ∀ w ∈ ws, p w = none := by
  intro ws
  induction ws with
  | nil =>
    intro ts ds hcol hts w hw
    simp at hw
  | cons w0 ws ih =>
    intro ts ds hcol hts v hv
    simp only [collect_day_data] at hcol
    cases hp : p w0 with
    | none =>
      rw [hp] at hcol
      rcases List.mem_cons.mp hv with h1 | h1
      · rw [h1]; exact hp
      · exact ih ts ds hcol hts v h1
    | some pd =>
      rw [hp] at hcol
      rcases Option.bind_eq_some.mp hcol with ⟨m, hm, hcol2⟩
      rcases Option.bind_eq_some.mp hcol2 with ⟨c, hc, hcol3⟩
      rcases Option.bind_eq_some.mp hcol3 with ⟨rest, hrest, hcol4⟩
      simp only [Option.pure_def, Option.some.injEq, Prod.mk.injEq] at hcol4
      rw [← hcol4.1] at hts
      exact absurd hts (List.cons_ne_nil _ _)

/-- Every window is visited by the renderer loops. -/
theorem mem_period_order (w : DayPeriod) : w ∈ period_order := by
  cases w <;> decide

/-- C10: every day bucket the bucketer produces has at least one
populated period window (every sample hour lands in one of the four
windows), so the empty-temperature branch of the per-day renderer — the
"no data for this day" placeholder — is unreachable on bucketer
output. -/
theorem bucket_has_populated_window (env : PyEnv) (l g : List ForecastItem)
    (hg : g ∈ group_forecasts_by_day env l) :
    (∃ w, split_day_into_periods env g w ≠ none) ∧
      ∀ ts ds,
        collect_day_data (split_day_into_periods env g) period_order =
            some (ts, ds) → ts ≠ [] := by
  have hne : g ≠ [] := group_bucket_ne_nil env hg
  obtain ⟨x, xs, rfl⟩ := List.exists_cons_of_ne_nil hne
  have hsplit : split_day_into_periods env (x :: xs)
      (window_of (local_hour env x.dt)) ≠ none := by
    rw [split_eq_filter_head]
    simp
  refine ⟨⟨window_of (local_hour env x.dt), hsplit⟩, ?_⟩
  intro ts ds hcol hts
  have hall := collect_empty_slots (split_day_into_periods env (x :: xs))
    period_order ts ds hcol hts
  exact hsplit (hall _ (mem_period_order _))

/-- Witness for `bucket_has_populated_window` on a one-sample bucket. -/
theorem bucket_has_populated_window_witness :
    [mk_item 7200] ∈ group_forecasts_by_day env0 [mk_item 7200] ∧
      ((∃ w, split_day_into_periods env0 [mk_item 7200] w ≠ none) ∧
        ∀ ts ds,
          collect_day_data (split_day_into_periods env0 [mk_item 7200])
              period_order = some (ts, ds) → ts ≠ []) :=
  ⟨by decide, bucket_has_populated_window env0 [mk_item 7200] [mk_item 7200] (by decide)⟩

/-- C8, part one packaged with position preservation: a day bucket with
no populated period window renders the "no data for this day"
placeholder, and the rendering loop maps the day at bucket index `i + j`
to output position `j` without shifting or dropping later days. -/
theorem no_data_placeholder_and_positions :
    (∀ (env : PyEnv) (day_name : String) (air : Option AirPayload) (idx : ℕ),
        create_single_day_message env day_name (fun _ => none) air idx =
          no_data_message day_name) ∧
      ∀ (env : PyEnv) (air : Option AirPayload)
        (daily : List (List ForecastItem)) (names : List String) (i j : ℕ)
        (nm : String) (dd : List ForecastItem),
        i + names.length ≤ daily.length → names[j]? = some nm →
        daily[i + j]? = some dd →
        (daily_messages env air daily i names)[j]? =
          some (create_single_day_message env nm
            (split_day_into_periods env dd) air (i + j)) := by
  constructor
  · intro env day_name air idx
    rfl
  · intro env air daily names
    induction names with
    | nil =>
      intro i j nm dd hlen hn hd
      simp at hn
    | cons a t ih =>
      intro i j nm dd hlen hn hd
      have hi : i < daily.length := by
        simp only [List.length_cons] at hlen
        omega
      obtain ⟨d0, hd0⟩ : ∃ d0, daily[i]? = some d0 :=
        ⟨daily[i], List.getElem?_eq_getElem hi⟩
      cases j with
      | zero =>
        simp only [List.getElem?_cons_zero, Option.some.injEq] at hn
        subst hn
        rw [Nat.add_zero] at hd
        simp only [daily_messages, hd0]
        rw [hd0] at hd
        simp only [Option.some.injEq] at hd
        subst hd
        simp
      | succ k =>
        simp only [List.getElem?_cons_succ] at hn
        have hlen2 : (i + 1) + t.length ≤ daily.length := by
          simp only [List.length_cons] at hlen
          omega
        have hd2 : daily[(i + 1) + k]? = some dd := by
          rw [show (i + 1) + k = i + (k + 1) by omega]
          exact hd
        have := ih (i + 1) k nm dd hlen2 hn hd2
        simp only [daily_messages, hd0]
        rw [List.getElem?_cons_succ]
        rw [show i + (k + 1) = (i + 1) + k by omega]
        exact this

/-- Witness for `no_data_placeholder_and_positions`: the second day
bucket renders at output position 1. -/
theorem no_data_placeholder_and_positions_witness :
    0 + (["СЬОГОДНІ", "ЗАВТРА"] : List String).length ≤
        ([[mk_item 0], [mk_item 90000]] : List (List ForecastItem)).length ∧
      (["СЬОГОДНІ", "ЗАВТРА"] : List String)[1]? = some "ЗАВТРА" ∧
      ([[mk_item 0], [mk_item 90000]] : List (List ForecastItem))[0 + 1]? =
        some [mk_item 90000] ∧
      (daily_messages env0 (some sample_air) [[mk_item 0], [mk_item 90000]] 0
          ["СЬОГОДНІ", "ЗАВТРА"])[1]? =
        some (create_single_day_message env0 "ЗАВТРА"
          (split_day_into_periods env0 [mk_item 90000]) (some sample_air) (0 + 1)) :=
  ⟨by decide, rfl, rfl,
    no_data_placeholder_and_positions.2 env0 (some sample_air)
      [[mk_item 0], [mk_item 90000]] ["СЬОГОДНІ", "ЗАВТРА"] 0 1 "ЗАВТРА"
      [mk_item 90000] (by decide) rfl rfl⟩

/-- A numeric bound: the logarithm of one hundredth is below minus
four. -/
theorem log_hundredth_lt : Real.log ((1 : ℝ) / 100) < -4 := by
  have h4 : (4 : ℝ) < Real.log 100 := by
    rw [Real.lt_log_iff_exp_lt (by norm_num : (0 : ℝ) < 100)]
    have h1 : Real.exp 4 = Real.exp 1 ^ 4 := by
      rw [← Real.exp_nat_mul]
      norm_num
    calc Real.exp 4 = Real.exp 1 ^ 4 := h1
      _ < 2.7182818286 ^ 4 :=
          pow_lt_pow_left₀ Real.exp_one_lt_d9 (le_of_lt (Real.exp_pos 1)) (by norm_num)
      _ < 100 := by norm_num
  have hinv : Real.log ((1 : ℝ) / 100) = -Real.log 100 := by
    rw [one_div, Real.log_inv]
  linarith

/-- Evaluation of the dew point in its regular (non-raising) branch. -/
theorem dew_point_eval (t : ℝ) (h : ℕ) (hh : h ≠ 0) (ht : (237.7 : ℝ) + t ≠ 0)
    (ha : (17.27 * t) / (237.7 + t) + Real.log ((h : ℝ) / 100) ≠ 17.27) :
    calculate_dew_point Real.log t h =
      237.7 * ((17.27 * t) / (237.7 + t) + Real.log ((h : ℝ) / 100)) /
        (17.27 - ((17.27 * t) / (237.7 + t) + Real.log ((h : ℝ) / 100))) := by
  unfold calculate_dew_point
  rw [if_neg hh, if_neg ht]
  show (if (17.27 * t) / (237.7 + t) + Real.log ((h : ℝ) / 100) = 17.27
      then t - 10
      else 237.7 * ((17.27 * t) / (237.7 + t) + Real.log ((h : ℝ) / 100)) /
        (17.27 - ((17.27 * t) / (237.7 + t) + Real.log ((h : ℝ) / 100)))) = _
  rw [if_neg ha]

/-- C9 counterexample: at a fixed temperature of 20 °C, moving from 0%
to 1% humidity makes the computed dew point jump down — the
zero-humidity `except` fallback returns 10 while 1% humidity yields a
negative value — so the dew point is not monotone over the full 0-100
domain. -/
theorem dew_point_monotonicity_counterexample :
    calculate_dew_point Real.log (20 : ℝ) 1 < calculate_dew_point Real.log (20 : ℝ) 0 := by
  have h0 : calculate_dew_point Real.log (20 : ℝ) 0 = 10 := by
    norm_num [calculate_dew_point]
  have halpha : (17.27 * 20 : ℝ) / (237.7 + 20) + Real.log ((1 : ℝ) / 100) < 0 := by
    have hl := log_hundredth_lt
    have hc : (17.27 * 20 : ℝ) / (237.7 + 20) < 2 := by norm_num
    linarith
  have h1 : calculate_dew_point Real.log (20 : ℝ) 1 < 0 := by
    rw [dew_point_eval 20 1 (by norm_num) (by norm_num)
      (by simp only [Nat.cast_one]; exact ne_of_lt (by linarith))]
    simp only [Nat.cast_one]
    apply div_neg_of_neg_of_pos
    · nlinarith
    · linarith
  linarith

/-- C9 amended: the dew point is monotone non-decreasing in humidity on
the domain 1-100 for every temperature above -237.7 °C (where the
Magnus denominator is positive); at 0% the exception fallback breaks
monotonicity.  The heat index is monotone non-decreasing in humidity on
0-100 whenever the temperature is at least 27 °C. -/
theorem dew_heat_monotone_in_humidity :
    (∀ (t : ℝ) (h1 h2 : ℕ), -237.7 < t → 1 ≤ h1 → h1 ≤ h2 → h2 ≤ 100 →
        calculate_dew_point Real.log t h1 ≤ calculate_dew_point Real.log t h2) ∧
      ∀ (t : ℝ) (h1 h2 : ℕ), 27 ≤ t → h1 ≤ h2 → h2 ≤ 100 →
        calculate_heat_index t h1 ≤ calculate_heat_index t h2 := by
  constructor
  · intro t h1 h2 ht hh1 hh12 hh2
    have hden : (0 : ℝ) < 237.7 + t := by linarith
    have hc : (17.27 * t) / (237.7 + t) < 17.27 := by
      rw [div_lt_iff₀ hden]
      nlinarith
    have hcast1 : (1 : ℝ) ≤ (h1 : ℝ) := by exact_mod_cast hh1
    have hcast12 : (h1 : ℝ) ≤ (h2 : ℝ) := by exact_mod_cast hh12
    have hcast2 : (h2 : ℝ) ≤ 100 := by exact_mod_cast hh2
    have hp1 : (0 : ℝ) < (h1 : ℝ) / 100 := by linarith
    have hle : (h1 : ℝ) / 100 ≤ (h2 : ℝ) / 100 := by linarith
    have hlog12 : Real.log ((h1 : ℝ) / 100) ≤ Real.log ((h2 : ℝ) / 100) :=
      Real.log_le_log hp1 hle
    have hlog2 : Real.log ((h2 : ℝ) / 100) ≤ 0 :=
      Real.log_nonpos (by linarith) (by linarith)
    have hup2 : (17.27 * t) / (237.7 + t) + Real.log ((h2 : ℝ) / 100) < 17.27 := by
      linarith
    have hup1 : (17.27 * t) / (237.7 + t) + Real.log ((h1 : ℝ) / 100) < 17.27 := by
      linarith
    rw [dew_point_eval t h1 (by omega) (ne_of_gt hden) (ne_of_lt hup1),
      dew_point_eval t h2 (by omega) (ne_of_gt hden) (ne_of_lt hup2)]
    rw [div_le_div_iff₀ (by linarith) (by linarith)]
    nlinarith
  · intro t h1 h2 ht hh12 hh2
    unfold calculate_heat_index
    rw [if_neg (not_lt.mpr ht), if_neg (not_lt.mpr ht)]
    apply max_le_max (le_refl t)
    have hcast : (h1 : ℝ) ≤ (h2 : ℝ) := by exact_mod_cast hh12
    nlinarith

/-- Witness for `dew_heat_monotone_in_humidity` at concrete
temperatures and humidities. -/
theorem dew_heat_monotone_in_humidity_witness :
    ((-237.7 : ℝ) < 20 ∧ (1 : ℕ) ≤ 50 ∧ (50 : ℕ) ≤ 60 ∧ (60 : ℕ) ≤ 100 ∧
        calculate_dew_point Real.log (20 : ℝ) 50 ≤
          calculate_dew_point Real.log (20 : ℝ) 60) ∧
      ((27 : ℝ) ≤ 30 ∧ (0 : ℕ) ≤ 50 ∧ (50 : ℕ) ≤ 100 ∧
        calculate_heat_index (30 : ℝ) 0 ≤ calculate_heat_index (30 : ℝ) 50) :=
  ⟨⟨by norm_num, by norm_num, by norm_num, by norm_num,
      dew_heat_monotone_in_humidity.1 20 50 60 (by norm_num) (by norm_num)
        (by norm_num) (by norm_num)⟩,
    ⟨by norm_num, by norm_num, by norm_num,
      dew_heat_monotone_in_humidity.2 30 0 50 (by norm_num) (by norm_num)
        (by norm_num)⟩⟩
